import Mathlib

/- Shallow embedding of the multi-agent workflow orchestration engine of the
   career-coach backend (backend/app/agents).  The mutable `GraphState`
   TypedDict threaded through the LangGraph nodes is modelled as an immutable
   record; each node becomes a pure function `GraphState → GraphState`.
   Language-model and store calls are opaque collaborators and are modelled as
   oracle arguments (`Option`/small sum types describing the outcome of the
   call, with `none` standing for a raised exception inside the guarded
   block).  Python truthiness on optional strings (`None` and `""` are falsy)
   is modelled explicitly. -/

namespace CareerCoach

/-- One chat message (langchain Human/AI message): a role tag and content. -/
structure ChatMsg where
  role : String
  content : String
deriving Repr, DecidableEq

/-- One record of `agent_scratchpad["routing_history"]`:
`{"query": ..., "decision": ..., "stage": ...}` appended by `_router_node`. -/
structure RoutingRecord where
  query : String
  decision : String
  stage : String
deriving Repr, DecidableEq

/-- One record of `agent_scratchpad["routing_decisions"]` appended by
`RouterAgent.route_query` for debugging. -/
structure RoutingDecision where
  query : String
  decision : String
  needs_followup : Bool
deriving Repr, DecidableEq

/-- The keys of the free-form `agent_scratchpad` dict that the orchestrator
actually reads or writes.  `none` models the key being absent from the
dict (the nodes use `"key" not in ...` checks before first append). -/
structure Scratchpad where
  routing_history : Option (List RoutingRecord) := none
  routing_decisions : Option (List RoutingDecision) := none
  completed_agents : Option (List String) := none
  routing_context : Option String := none
deriving Repr, DecidableEq

/-- A value of the untyped `updates` dict produced by the profile-update
LLM call: values are strings or lists of strings (the code handles both,
e.g. `_apply_updates` and `_create_update_message`). -/
inductive UVal where
  | str (v : String)
  | list (v : List String)
deriving Repr, DecidableEq

/-- The `updates` payload: a string-keyed dict. -/
abbrev UpdPayload := List (String × UVal)

/-- The `profile_updates` slot: `{"updates": ..., "message": ...}` as built by
`ProfileUpdater.update_profile` (the `message` key is read back elsewhere with
`.get`, hence `Option`). -/
structure ProfileUpdates where
  updates : UpdPayload
  message : Option String
deriving Repr, DecidableEq

/-- The `pending_confirmation` record built by `_profile_updater_node`:
`{"action": ..., "updates": result["profile_updates"], "prompt": ...}`.
Note the `updates` key carries the whole `profile_updates` dict. -/
structure PendingConfirmation where
  action : String
  updates : ProfileUpdates
  prompt : String
deriving Repr, DecidableEq

/-- The parsed JSON dict stored in `job_fit_analysis`.  It is whatever dict the
`JsonOutputParser` produced from the model output, so every key the code later
reads with `.get` is optional; `analysis` is the key `_finalize_response_node`
reads, `score`/`summary`/`missing_skills`/`enhancements` are the keys
`_format_analysis_response` reads. -/
structure JobFitDict where
  score : Option Int := none
  summary : Option String := none
  missing_skills : Option (List String) := none
  enhancements : Option (List String) := none
  analysis : Option String := none
deriving Repr, DecidableEq

/-- The dict shape of `career_path_response` as built by
`CareerPathAgent.provide_career_guidance`; `guidance` is the key the
finalizer reads with `.get` (the agent itself never sets it). -/
structure CareerDict where
  analysis : Option String := none
  trajectory : Option String := none
  upskilling_areas : List String := []
  guidance : Option String := none
deriving Repr, DecidableEq

/-- `career_path_response` may hold a dict or a plain string (the finalizer
branches on `isinstance(..., dict)` / `isinstance(..., str)`). -/
inductive CareerVal where
  | asDict (d : CareerDict)
  | asStr (t : String)
deriving Repr, DecidableEq

/-- The user profile document: an opaque string-keyed record as far as the
orchestration core is concerned (its fields only feed prompt formatting,
which is absorbed into the LLM oracles). -/
abbrev Profile := List (String × UVal)

/-- The `GraphState` TypedDict of `app/agents/state.py`. -/
structure GraphState where
  session_id : String
  user_profile_data : Profile
  current_user_query : String
  chat_history : List ChatMsg
  agent_type : String
  next_agent : Option String
  agent_scratchpad : Scratchpad
  router_decision : String
  job_fit_analysis : Option JobFitDict
  career_path_response : Option CareerVal
  profile_updates : Option ProfileUpdates
  content_enhancement_result : Option String
  final_response : String
  profile_updated : Bool
  requires_human_input : Bool
  human_input_type : Option String
  human_input_prompt : Option String
  human_input_received : Option String
  pending_confirmation : Option PendingConfirmation
  workflow_stage : String
deriving Repr, DecidableEq

/-- Python truthiness of an optional string slot: `None` and `""` are falsy. -/
def truthy : Option String → Bool
  | none => false
  | some t => t ≠ ""

/-! ## Python string primitives

The source manipulates strings with `str.lower`, `str.strip`, `sub in s` and
`str.split()`.  These are modelled directly over the character list (ASCII
case folding, which covers every string the code compares case-folded
output against). -/

/-- ASCII case folding of one character (`str.lower` on the alphabets the
code compares against). -/
def lowerChar (c : Char) : Char :=
  if 65 ≤ c.toNat ∧ c.toNat ≤ 90 then Char.ofNat (c.toNat + 32) else c

/-- Python `str.lower`. -/
def py_lower (s : String) : String := ⟨s.data.map lowerChar⟩

/-- Python `str.strip()`: drop whitespace from both ends. -/
def py_strip (s : String) : String :=
  ⟨((s.data.dropWhile Char.isWhitespace).reverse.dropWhile Char.isWhitespace).reverse⟩

/-- Whether the second list is a prefix of the first. -/
def starts_with_chars : List Char → List Char → Bool
  | _, [] => true
  | [], _ :: _ => false
  | a :: as, b :: bs => a = b && starts_with_chars as bs

/-- Whether the pattern occurs as a contiguous sublist. -/
def has_sub_chars : List Char → List Char → Bool
  | [], pat => pat.isEmpty
  | a :: rest, pat => starts_with_chars (a :: rest) pat || has_sub_chars rest pat

/-- Python substring containment `sub in s`. -/
def py_contains (s sub : String) : Bool := has_sub_chars s.data sub.data

/-- Accumulator pass splitting a character list into maximal non-whitespace
runs. -/
def words_aux : List Char → List Char → List (List Char)
  | [], acc => if acc.isEmpty then [] else [acc.reverse]
  | c :: cs, acc =>
    if c.isWhitespace then
      (if acc.isEmpty then words_aux cs [] else acc.reverse :: words_aux cs [])
    else words_aux cs (c :: acc)

/-- Python `str.split()` with no separator: whitespace runs are separators
and empty pieces are dropped. -/
def py_split_whitespace (s : String) : List String :=
  (words_aux s.data []).map (fun l => ⟨l⟩)

/-! ## Router agent (`app/agents/router_agent.py`, interrupt-capable branch) -/

/-- The fixed decision set the router validates against. -/
def valid_agents : List String :=
  ["profile_updater", "job_fit_analyst", "content_enhancement", "career_path", "end"]

/-- Outcome of the router LLM call plus JSON parsing in `route_query`:
`some (raw, f)` means the whole `try` block succeeded with
`decision_data.get("agent", "career_path") = raw` (a string) and
`decision_data.get("needs_followup", False)` truthy iff `f`; `none` means some
step raised (model call, `json.loads`, or `.strip()` on a non-string), which
the `except` arm turns into `("career_path", False)`. -/
abbrev RouterLLM := Option (String × Bool)

/-- The raw decision string once the `try`/`except` has resolved:
`.strip().lower()` (`py_lower`/`py_strip`) on success, the fallback on failure. -/
def raw_decision (llm : RouterLLM) : String × Bool :=
  match llm with
  | some (raw, f) => (py_lower (py_strip raw), f)
  | none => ("career_path", false)

/-- The validated decision: anything outside `valid_agents` becomes
`career_path`. -/
def validated_decision (llm : RouterLLM) : String :=
  let d := (raw_decision llm).1
  if d ∈ valid_agents then d else "career_path"

/-- `RouterAgent.route_query` (state updates after classification; prompt
formatting and the model call itself are the `llm` oracle). -/
def route_query (llm : RouterLLM) (state : GraphState) : GraphState :=
  let agent_decision := validated_decision llm
  let needs_followup := (raw_decision llm).2
  { state with
    router_decision := agent_decision
    agent_type := if agent_decision ≠ "end" then agent_decision else state.agent_type
    next_agent :=
      if needs_followup && (agent_decision != "end") then some "router" else some "end"
    agent_scratchpad := { state.agent_scratchpad with
      routing_decisions := some ((state.agent_scratchpad.routing_decisions.getD []) ++
        [⟨state.current_user_query, agent_decision, needs_followup⟩]) } }

/-! ## Orchestrator nodes (`app/agents/langgraph_orchestrator.py`) -/

/-- `_router_node`: consume a pending human answer into the active query,
ensure `routing_history` exists, classify, and append one routing record. -/
def router_node (llm : RouterLLM) (state : GraphState) : GraphState :=
  let state :=
    if truthy state.human_input_received then
      { state with
        current_user_query := state.human_input_received.getD ""
        human_input_received := none }
    else state
  let state :=
    if state.agent_scratchpad.routing_history = none then
      { state with agent_scratchpad := { state.agent_scratchpad with routing_history := some [] } }
    else state
  let result := route_query llm state
  { result with agent_scratchpad := { result.agent_scratchpad with
      routing_history := some ((result.agent_scratchpad.routing_history.getD []) ++
        [⟨result.current_user_query, result.router_decision, result.workflow_stage⟩]) } }

/-- The fixed review prompt of `_router_confirmation_node`. -/
def review_prompt : String :=
  "I\x27ve analyzed your request from multiple angles. Would you like me to continue or is this sufficient?"

/-- `_router_confirmation_node`: explicit-confirmation tier, then the
two-agents circuit breaker, else mark the pass confirmed. -/
def router_confirmation_node (state : GraphState) : GraphState :=
  if state.pending_confirmation.isSome then
    { state with
      requires_human_input := true
      human_input_type := some "confirmation"
      workflow_stage := "awaiting_confirmation" }
  else if 2 ≤ (state.agent_scratchpad.completed_agents.getD []).length then
    { state with
      requires_human_input := true
      human_input_type := some "review"
      human_input_prompt := some review_prompt
      workflow_stage := "awaiting_input" }
  else
    { state with workflow_stage := "confirmed" }

/-- The fixed clarification prompt of `_human_interaction_node`. -/
def clarification_prompt : String :=
  "I need more information to proceed. Could you clarify your request?"

/-- `_human_interaction_node`: synthesize a prompt when none is set, then mark
the state as awaiting input. -/
def human_interaction_node (state : GraphState) : GraphState :=
  let state :=
    if !(truthy state.human_input_prompt) then
      if state.human_input_type = some "confirmation" then
        match state.pending_confirmation with
        | some conf_data => { state with human_input_prompt := some conf_data.prompt }
        | none => state
      else if state.human_input_type = some "clarification" then
        { state with human_input_prompt := some clarification_prompt }
      else
        { state with human_input_prompt := some "How would you like me to proceed?" }
    else state
  { state with workflow_stage := "awaiting_input" }

/-- The affirmative answers accepted by `_resume_after_human_node`. -/
def affirmative_answers : List String := ["yes", "confirm", "proceed", "y"]

/-- The fixed cancellation message written into `final_response`. -/
def cancellation_message : String :=
  "Understood. I\x27ve cancelled that action. How else can I help you?"

/-- `_resume_after_human_node`: process the received input for confirmation
turns, then clear the human-interaction scratch fields unconditionally. -/
def resume_after_human_node (state : GraphState) : GraphState :=
  let human_input := state.human_input_received.getD ""
  let state :=
    if state.human_input_type = some "confirmation" then
      if py_lower human_input ∈ affirmative_answers then
        let state := { state with workflow_stage := "confirmed" }
        if (state.pending_confirmation.map (·.action)) = some "profile_update" then
          { state with profile_updated := true }
        else state
      else
        { state with
          workflow_stage := "cancelled"
          final_response := cancellation_message }
    else state
  { state with
    requires_human_input := false
    human_input_type := none
    human_input_prompt := none
    pending_confirmation := none }

/-- The generic completion message of `_finalize_response_node`. -/
def generic_completion_message : String :=
  "I\x27ve completed processing your request. How else can I help you?"

/-- The `responses` list gathered by `_finalize_response_node` from the four
agent output slots (each guarded by Python truthiness of the read value). -/
def gather_responses (state : GraphState) : List String :=
  (match state.profile_updates with
   | some profile_data => if truthy profile_data.message then [profile_data.message.getD ""] else []
   | none => []) ++
  (match state.job_fit_analysis with
   | some analysis => if truthy analysis.analysis then [analysis.analysis.getD ""] else []
   | none => []) ++
  (match state.career_path_response with
   | some (.asDict career_resp) =>
       if truthy career_resp.guidance then [career_resp.guidance.getD ""] else []
   | some (.asStr career_resp) => if career_resp ≠ "" then [career_resp] else []
   | none => []) ++
  (match state.content_enhancement_result with
   | some r => if r ≠ "" then [r] else []
   | none => [])

/-- `_finalize_response_node`: join gathered outputs with blank lines, or fall
back to the generic message only when `final_response` is still empty; always
mark the turn completed. -/
def finalize_response_node (state : GraphState) : GraphState :=
  let responses := gather_responses state
  let state :=
    if responses ≠ [] then
      { state with final_response := String.intercalate "\n\n" responses }
    else if state.final_response = "" then
      { state with final_response := generic_completion_message }
    else state
  { state with workflow_stage := "completed" }

/-- `_route_from_router`: the conditional edge out of the router node. -/
def route_from_router (state : GraphState) : String :=
  let decision := state.router_decision
  if state.requires_human_input then "human_interaction"
  else if decision = "end" || state.workflow_stage = "cancelled" then "finalize"
  else if decision ∈ ["profile_updater", "job_fit_analyst", "career_path", "content_enhancement"]
  then decision
  else "finalize"

/-- `_route_from_confirmation`: the conditional edge out of the confirmation
gate. -/
def route_from_confirmation (state : GraphState) : String :=
  if state.requires_human_input then "human_interaction"
  else if state.next_agent = some "router" then "router"
  else "finalize"

/-- `_check_human_input`: the conditional edge out of the human-interaction
node (truthiness test on `human_input_received`). -/
def check_human_input (state : GraphState) : String :=
  if truthy state.human_input_received then "resume" else "wait"

/-! ## Profile updater (`app/agents/profile_updater.py`) -/

/-- `_create_update_message`: the confirmation message for applied updates. -/
def create_update_message (updates : UpdPayload) : String :=
  let parts := ["✅ **Profile Updated!**\n"]
  let parts := parts ++
    (match updates.lookup "skills" with
     | some (.list skills) =>
         ["• Added skills: " ++ String.intercalate ", " (skills.drop (skills.length - 3))]
     | some (.str skills) => ["• Added skills: " ++ skills]
     | none => [])
  let parts := parts ++
    (if (updates.lookup "experience").isSome then ["• Updated work experience"] else [])
  let parts := parts ++
    (if (updates.lookup "about").isSome then ["• Updated professional summary"] else [])
  let parts := parts ++
    ["\nYour profile is now more complete! This helps me provide better career guidance."]
  String.intercalate "\n" parts

/-- The degraded message when the store write failed. -/
def failed_update_message : String :=
  "I noted your information but couldn\x27t update your profile right now."

/-- Outcome of the LLM extraction plus store interaction in
`ProfileUpdater.update_profile`: `raised` models the `except` arm,
`noUpdates` models `has_updates = False`, `applied updates success refreshed`
models `has_updates = True` with `_apply_updates` returning `success`
(that helper catches its own exceptions and the store call) and
`get_user_profile` returning `refreshed`. -/
inductive UpdOutcome where
  | raised
  | noUpdates
  | applied (updates : UpdPayload) (success : Bool) (refreshed : Option Profile)

/-- `ProfileUpdater.update_profile`. -/
def update_profile (o : UpdOutcome) (state : GraphState) : GraphState :=
  let state :=
    match o with
    | .raised => { state with profile_updates := none, next_agent := some "router" }
    | .noUpdates => { state with profile_updates := none, next_agent := some "router" }
    | .applied updates success refreshed =>
      if success then
        let state :=
          match refreshed with
          | some updated_profile => { state with user_profile_data := updated_profile }
          | none => state
        let state := { state with
          profile_updated := true
          profile_updates := some ⟨updates, some (create_update_message updates)⟩ }
        if (updates.lookup "skills").isSome then { state with next_agent := some "router" }
        else state
      else
        { state with profile_updates := some ⟨[], some failed_update_message⟩ }
  { state with agent_type := "profile_updater" }

/-! ## Career path agent (`app/agents/career_path_agent.py`) -/

/-- The fixed skill keyword lists of `_extract_upskilling_areas`. -/
def tech_skills : List String :=
  ["Python", "JavaScript", "React", "Node.js", "AWS", "Docker", "Kubernetes",
   "Machine Learning", "Data Science", "DevOps", "Cloud Computing"]

/-- The soft-skill keyword list of `_extract_upskilling_areas`. -/
def soft_skills : List String :=
  ["Leadership", "Communication", "Project Management", "Strategic Thinking",
   "Team Management", "Negotiation", "Public Speaking"]

/-- `_extract_upskilling_areas`: keyword scan over the guidance text with
defaults when nothing matches, capped at 5. -/
def extract_upskilling_areas (guidance_text : String) : List String :=
  let guidance_lower := py_lower guidance_text
  let upskilling_areas :=
    (tech_skills ++ soft_skills).filter (fun skill => py_contains guidance_lower (py_lower skill))
  let upskilling_areas :=
    if upskilling_areas = [] then
      ["Industry Knowledge", "Technical Skills", "Leadership", "Communication",
       "Strategic Thinking"]
    else upskilling_areas
  upskilling_areas.take 5

/-- `_get_fallback_response` (the f-string interpolates nothing). -/
def career_fallback_response (_user_query : String) : String :=
  "I understand you\x27re looking for career guidance. While I encountered a technical issue processing your specific request, I\x27d be happy to help you with:\n\n## 🎯 Career Planning Areas I Can Assist With:\n\n**Career Trajectory Planning**\n- Moving from your current role to your target position\n- Realistic timelines and milestones\n- Skills gap analysis\n\n**Professional Development**\n- Key skills to develop for your goals\n- Learning resources and paths\n- Industry insights and trends\n\n**Job Search Strategy**\n- Resume and LinkedIn optimization\n- Interview preparation\n- Networking advice\n\n**Career Transitions**\n- Changing industries or roles\n- Leveraging transferable skills\n- Managing career pivots\n\n---\n\nPlease try rephrasing your question or let me know specifically what aspect of your career you\x27d like to focus on. I\x27m here to provide practical, actionable guidance based on your background and goals!"

/-- `CareerPathAgent.provide_career_guidance`: `some guidance` is the model
output of the `try` block, `none` the `except` arm. -/
def provide_career_guidance (llm : Option String) (state : GraphState) : GraphState :=
  match llm with
  | some guidance =>
    { state with
      final_response := guidance
      agent_type := "career_path"
      career_path_response := some (.asDict
        { analysis := some (if guidance.length > 500 then guidance.take 500 ++ "..." else guidance)
          trajectory := some "Generated career trajectory"
          upskilling_areas := extract_upskilling_areas guidance
          guidance := none }) }
  | none =>
    { state with
      final_response := career_fallback_response state.current_user_query
      agent_type := "career_path" }

/-! ## Content enhancement agent (`app/agents/content_enhancement_agent.py`) -/

/-- `_get_fallback_enhancement_response`. -/
def content_fallback_response (_user_query : String) : String :=
  "# LinkedIn Profile Enhancement Guide\n\nI\x27d be happy to help you improve your LinkedIn profile! Here are some general areas I can assist with:\n\n## 🎯 Profile Sections I Can Optimize:\n\n**Professional Headline**\n- Craft compelling, keyword-rich headlines\n- Include your value proposition\n- Make it recruiter-friendly\n\n**About Section**\n- Write engaging professional summaries\n- Highlight key achievements and skills\n- Include industry keywords\n- Tell your professional story\n\n**Experience Descriptions**\n- Add quantifiable achievements\n- Use action verbs and metrics\n- Optimize for ATS systems\n- Highlight key accomplishments\n\n**Skills & Keywords**\n- Identify relevant industry keywords\n- Optimize for search visibility\n- Align with target roles\n\n## 💡 How to Get Started:\n\n1. **Share your current content** - paste your existing headline, about section, or experience descriptions\n2. **Tell me your goals** - what type of roles are you targeting?\n3. **Mention your industry** - so I can suggest relevant keywords\n\n**Example requests:**\n- \"Help me rewrite my LinkedIn headline\"\n- \"Improve my about section for data science roles\"\n- \"Make my experience descriptions more impactful\"\n\nWhat specific part of your profile would you like to enhance?"

/-- `ContentEnhancementAgent.enhance_content`. -/
def enhance_content (llm : Option String) (state : GraphState) : GraphState :=
  match llm with
  | some enhancement =>
    { state with
      final_response := enhancement
      agent_type := "content_enhancement"
      content_enhancement_result := some enhancement }
  | none =>
    { state with
      final_response := content_fallback_response state.current_user_query
      agent_type := "content_enhancement" }

/-! ## Job fit analyst (`app/agents/job_fit_analyst.py`) -/

/-- The keyword indicators of `_extract_job_description`. -/
def job_indicators : List String :=
  ["job description", "requirements", "responsibilities", "qualifications",
   "skills required", "experience required", "we are looking for", "position",
   "role", "hiring"]

/-- `_extract_job_description`: keyword scan, else empty for short queries. -/
def extract_job_description (user_query : String) : String :=
  let query_lower := py_lower user_query
  if job_indicators.any (fun indicator => py_contains query_lower indicator) then user_query
  else if (py_split_whitespace user_query).length < 20 then ""
  else user_query

/-- The guidance text returned when no job description is found (the source
file carries mojibake byte sequences in these literals; they are reproduced
as written). -/
def no_job_description_response : String :=
  "I\x27d be happy to analyze a job fit for you! Please paste the job description you\x27d like me to analyze against your profile. \n\nYou can share:\n- The full job posting\n- Just the requirements section\n- Key skills and qualifications listed\n\nOnce you provide the job details, I\x27ll give you:\nâœ… A detailed fit score (0-100%)\nâœ… Analysis of your strengths for this role\nâœ… Specific skills you might be missing\nâœ… Suggestions to improve your profile for better alignment"

/-- The fixed error fallback of `analyze_job_fit`. -/
def job_fit_error_response : String :=
  "I encountered an issue analyzing the job fit. Please try rephrasing your request or check if the job description is clear and complete."

/-- `_format_analysis_response`. -/
def format_analysis_response (analysis : JobFitDict) : String :=
  let score := analysis.score.getD 0
  let summary := analysis.summary.getD ""
  let missing_skills := analysis.missing_skills.getD []
  let enhancements := analysis.enhancements.getD []
  let fit_level :=
    if score ≥ 80 then "ðŸŸ¢ Strong Match"
    else if score ≥ 60 then "ðŸŸ¡ Good Match"
    else "ðŸ”´ Needs Development"
  let response := "# Job Fit Analysis Results\n\n## " ++ fit_level ++ " - " ++ toString score ++
    "% Fit Score\n\n" ++ summary ++ "\n\n"
  let response :=
    if missing_skills ≠ [] then
      response ++ "## ðŸŽ¯ Skills to Develop\n" ++
        String.join (missing_skills.map (fun skill => "â€¢ " ++ skill ++ "\n")) ++ "\n"
    else response
  let response :=
    if enhancements ≠ [] then
      response ++ "## ðŸ’¡ Profile Enhancement Tips\n" ++
        String.join (enhancements.enum.map
          (fun p => toString (p.1 + 1) ++ ". " ++ p.2 ++ "\n")) ++ "\n"
    else response
  response ++ "---\n*Would you like me to help you develop any of these skills or enhance your profile content?*"

/-- `JobFitAnalyst.analyze_job_fit`: `llm` is the parsed model output of the
`try` block (`none` = the call or parse raised). -/
def analyze_job_fit (llm : Option JobFitDict) (state : GraphState) : GraphState :=
  let job_description := extract_job_description state.current_user_query
  if job_description = "" then
    { state with final_response := no_job_description_response, agent_type := "job_fit_analyst" }
  else
    match llm with
    | some analysis =>
      { state with
        job_fit_analysis := some analysis
        final_response := format_analysis_response analysis
        agent_type := "job_fit_analyst" }
    | none =>
      { state with final_response := job_fit_error_response, agent_type := "job_fit_analyst" }

/-! ## Agent wrapper nodes (orchestrator lines 247-298) -/

/-- The completion bookkeeping every wrapper performs: append the agent name
to `completed_agents`, creating the list when the key is absent. -/
def append_completed (name : String) (state : GraphState) : GraphState :=
  { state with agent_scratchpad := { state.agent_scratchpad with
      completed_agents := some ((state.agent_scratchpad.completed_agents.getD []) ++ [name]) } }

/-- The confirmation prompt built by `_profile_updater_node`. -/
def confirmation_prompt_for (u : ProfileUpdates) : String :=
  "I found new information to add to your profile. Should I update it with: " ++
    u.message.getD "these changes" ++ "?"

/-- The extra rule of `_profile_updater_node`: a produced `profile_updates`
with `profile_updated` still false forces a pending confirmation. -/
def profile_confirmation_rule (result : GraphState) : GraphState :=
  match result.profile_updates with
  | some u =>
    if !result.profile_updated then
      { result with
        pending_confirmation := some ⟨"profile_update", u, confirmation_prompt_for u⟩
        requires_human_input := true }
    else result
  | none => result

/-- `_profile_updater_node`. -/
def profile_updater_node (o : UpdOutcome) (state : GraphState) : GraphState :=
  append_completed "profile_updater" (profile_confirmation_rule (update_profile o state))

/-- `_job_fit_analyst_node`. -/
def job_fit_analyst_node (llm : Option JobFitDict) (state : GraphState) : GraphState :=
  append_completed "job_fit_analyst" (analyze_job_fit llm state)

/-- `_career_path_node`. -/
def career_path_node (llm : Option String) (state : GraphState) : GraphState :=
  append_completed "career_path" (provide_career_guidance llm state)

/-- `_content_enhancement_node`. -/
def content_enhancement_node (llm : Option String) (state : GraphState) : GraphState :=
  append_completed "content_enhancement" (enhance_content llm state)

/-! ## Graph stepping -/

/-- One node execution together with its oracle data: the unit of stepping
through the compiled graph during a turn. -/
inductive Step where
  | router (llm : RouterLLM)
  | profileUpdater (o : UpdOutcome)
  | jobFitAnalyst (llm : Option JobFitDict)
  | careerPath (llm : Option String)
  | contentEnhancement (llm : Option String)
  | humanInteraction
  | resumeAfterHuman
  | routerConfirmation
  | finalizeResponse

/-- Execute one node. -/
def run_step : Step → GraphState → GraphState
  | .router llm => router_node llm
  | .profileUpdater o => profile_updater_node o
  | .jobFitAnalyst llm => job_fit_analyst_node llm
  | .careerPath llm => career_path_node llm
  | .contentEnhancement llm => content_enhancement_node llm
  | .humanInteraction => human_interaction_node
  | .resumeAfterHuman => resume_after_human_node
  | .routerConfirmation => router_confirmation_node
  | .finalizeResponse => finalize_response_node

/-- Execute a sequence of node visits. -/
def run_steps (steps : List Step) (state : GraphState) : GraphState :=
  steps.foldl (fun s st => run_step st s) state

/-- Whether a step is a router visit. -/
def Step.isRouter : Step → Bool
  | .router _ => true
  | _ => false

/-- Length of the routing-history audit trail (absent key counts as empty). -/
def routing_history_length (state : GraphState) : Nat :=
  (state.agent_scratchpad.routing_history.getD []).length

/-! ## `process_message` (orchestrator lines 300-412) -/

/-- One stored chat-history document (`message`/`response` read with `.get`). -/
structure ChatEntry where
  message : Option String := none
  response : Option String := none
deriving Repr, DecidableEq

/-- The fresh-turn initial state seeded from the stored history window plus
the new message (lines 334-362). -/
def initial_state (session_id user_message : String) (user_profile : Profile)
    (chat_history : List ChatEntry) : GraphState :=
  let messages := (chat_history.reverse.map (fun chat =>
      [ChatMsg.mk "human" (chat.message.getD ""), ChatMsg.mk "ai" (chat.response.getD "")])).flatten
  { session_id := session_id
    user_profile_data := user_profile
    current_user_query := user_message
    chat_history := messages ++ [ChatMsg.mk "human" user_message]
    agent_type := ""
    next_agent := none
    agent_scratchpad := {}
    router_decision := ""
    job_fit_analysis := none
    career_path_response := none
    profile_updates := none
    content_enhancement_result := none
    final_response := ""
    profile_updated := false
    requires_human_input := false
    human_input_type := none
    human_input_prompt := none
    human_input_received := none
    pending_confirmation := none
    workflow_stage := "processing" }

/-- The turn-level result dict of `process_message`: the interrupted shape
(`requires_input = True`) or the completed shape. -/
inductive TurnResult where
  | needsInput (message : String) (agent_type : String) (session_id : String)
      (input_type : String) (workflow_stage : String)
  | completed (message : String) (agent_type : String) (session_id : String)
      (profile_updated : Bool) (job_fit_analysis : Option JobFitDict)
      (career_path : Option CareerVal) (profile_updates : Option ProfileUpdates)
      (workflow_stage : String)
deriving Repr, DecidableEq

/-- The `add_chat_history` store write issued for completed turns. -/
structure SavedChat where
  session_id : String
  message : String
  response : String
  agent_type : String
deriving Repr, DecidableEq

/-- External collaborators of `process_message`, as oracles: the persisted
checkpoint for the session (`graph.get_state`), the stored chat-history
window (`get_chat_history(session_id, limit=6)`), and the two graph
executions — `run_fresh` maps a seeded initial state to the final
checkpointed state of streaming it, `run_resume` maps the updated checkpoint
to the final state of continuing the interrupted stream. -/
structure Env where
  checkpoint : Option GraphState
  stored_history : List ChatEntry
  run_fresh : GraphState → GraphState
  run_resume : GraphState → GraphState

/-- `LangGraphOrchestrator.process_message`: resume-or-fresh dispatch, the
post-run interrupt check, and the completed-turn history write.  Returns the
response dict together with the store write (if any). -/
def process_message (env : Env) (session_id user_message : String)
    (user_profile : Profile) (resume_from_interrupt : Bool) :
    TurnResult × Option SavedChat :=
  let do_resume := resume_from_interrupt &&
    (match env.checkpoint with
     | some st => st.requires_human_input
     | none => false)
  let final_state :=
    if do_resume then
      match env.checkpoint with
      | some st => env.run_resume { st with human_input_received := some user_message }
      | none => env.run_fresh (initial_state session_id user_message user_profile env.stored_history)
    else
      env.run_fresh (initial_state session_id user_message user_profile env.stored_history)
  if final_state.requires_human_input then
    (.needsInput (final_state.human_input_prompt.getD "Please provide input to continue.")
      "human_interaction" session_id (final_state.human_input_type.getD "general")
      "awaiting_input", none)
  else
    let saved :=
      if final_state.workflow_stage = "completed" then
        some ⟨session_id, user_message, final_state.final_response, final_state.agent_type⟩
      else none
    (.completed final_state.final_response final_state.agent_type session_id
      final_state.profile_updated final_state.job_fit_analysis
      final_state.career_path_response final_state.profile_updates
      final_state.workflow_stage, saved)

/-! ## Concrete states used by witnesses and counterexamples -/

/-- A fresh-turn state as `process_message` seeds it. -/
def base_state : GraphState := initial_state "session-1" "hello" [] []

/-! ## Theorems -/

/-- C4: for every user query and every classifier outcome — a parsed reply
with an arbitrary raw agent string, or a raised/unparseable call (`none`) —
`route_query` is total and leaves `router_decision` in the fixed five-value
set; any out-of-set classifier output and any failure is replaced by the
default `career_path`. -/
theorem router_decision_always_valid (llm : RouterLLM) (s : GraphState) :
    (route_query llm s).router_decision ∈ valid_agents ∧
    (∀ raw f, llm = some (raw, f) → py_lower (py_strip raw) ∉ valid_agents →
      (route_query llm s).router_decision = "career_path") ∧
    (llm = none → (route_query llm s).router_decision = "career_path") := by
  have hq : (route_query llm s).router_decision = validated_decision llm := rfl
  refine ⟨?_, ?_, ?_⟩
  · rw [hq]
    unfold validated_decision
    by_cases h : (raw_decision llm).1 ∈ valid_agents
    · rw [if_pos h]; exact h
    · rw [if_neg h]; decide
  · intro raw f hsome hout
    subst hsome
    rw [hq]
    show (if py_lower (py_strip raw) ∈ valid_agents then py_lower (py_strip raw)
          else "career_path") = "career_path"
    rw [if_neg hout]
  · intro hnone
    subst hnone
    rw [hq]
    decide

/-- C4 witness: a garbage classifier reply and a raised classifier call both
yield the default decision at a concrete state. -/
theorem router_decision_always_valid_witness :
    (route_query (some ("flibbertigibbet", false)) base_state).router_decision = "career_path" ∧
    (route_query none base_state).router_decision = "career_path" :=
  ⟨(router_decision_always_valid (some ("flibbertigibbet", false)) base_state).2.1
      "flibbertigibbet" false rfl (by decide),
   (router_decision_always_valid none base_state).2.2 rfl⟩

/-- C10: the human-interaction gate tests truthiness, not presence —
`_check_human_input` yields `resume` iff `human_input_received` is a
non-empty string, so a session resumed with the empty string stays waiting
at `human_interaction` instead of being processed as an answer. -/
theorem empty_input_does_not_resume (s : GraphState) :
    (∀ t : String, s.human_input_received = some t →
      (check_human_input s = "resume" ↔ t ≠ "")) ∧
    (s.human_input_received = none → check_human_input s = "wait") ∧
    check_human_input { s with human_input_received := some "" } = "wait" ∧
    (∀ t : String, t ≠ "" →
      check_human_input { s with human_input_received := some t } = "resume") := by
  refine ⟨?_, ?_, ?_, ?_⟩
  · intro t ht
    by_cases h : t = "" <;> simp [check_human_input, truthy, ht, h]
  · intro h; simp [check_human_input, truthy, h]
  · simp [check_human_input, truthy]
  · intro t ht; simp [check_human_input, truthy, ht]

/-- C10 witness: resuming the base state with the empty string waits, with a
non-empty string resumes. -/
theorem empty_input_does_not_resume_witness :
    check_human_input { base_state with human_input_received := some "" } = "wait" ∧
    check_human_input { base_state with human_input_received := some "yes" } = "resume" :=
  ⟨(empty_input_does_not_resume base_state).2.2.1,
   (empty_input_does_not_resume base_state).2.2.2 "yes" (by decide)⟩

/-- Case-analysis form of the finalizer. -/
lemma finalize_response_node_eq (s : GraphState) :
    finalize_response_node s =
      if gather_responses s ≠ [] then
        { s with final_response := String.intercalate "\n\n" (gather_responses s),
                 workflow_stage := "completed" }
      else if s.final_response = "" then
        { s with final_response := generic_completion_message,
                 workflow_stage := "completed" }
      else { s with workflow_stage := "completed" } := by
  simp only [finalize_response_node]
  split_ifs <;> rfl

/-- The gathered responses only read the four agent output slots, which a
final-response/stage rewrite leaves untouched. -/
lemma gather_responses_set_response (s : GraphState) (fr ws : String) :
    gather_responses { s with final_response := fr, workflow_stage := ws } =
      gather_responses s := rfl

/-- Same, for a stage-only rewrite. -/
lemma gather_responses_set_stage (s : GraphState) (ws : String) :
    gather_responses { s with workflow_stage := ws } = gather_responses s := rfl

/-- C7: the Finalizer is idempotent — applying `_finalize_response_node`
twice with no intervening agent output yields the same `final_response`, and
both applications leave `workflow_stage = "completed"`. -/
theorem finalizer_idempotent (s : GraphState) :
    (finalize_response_node (finalize_response_node s)).final_response =
      (finalize_response_node s).final_response ∧
    (finalize_response_node s).workflow_stage = "completed" ∧
    (finalize_response_node (finalize_response_node s)).workflow_stage = "completed" := by
  refine ⟨?_, rfl, rfl⟩
  rw [finalize_response_node_eq s]
  split_ifs with h1 h2
  · rw [finalize_response_node_eq, gather_responses_set_response]
    simp [h1]
  · rw [finalize_response_node_eq, gather_responses_set_response]
    have hne : generic_completion_message ≠ "" := by decide
    simp [h1, hne]
  · rw [finalize_response_node_eq, gather_responses_set_stage]
    simp [h1, h2]

/-- A pending-confirmation record as the profile-updater wrapper builds it
when the store write failed. -/
def sample_pending : PendingConfirmation :=
  ⟨"profile_update", ⟨[], some failed_update_message⟩,
    confirmation_prompt_for ⟨[], some failed_update_message⟩⟩

/-- A state suspended at the confirmation gate. -/
def c1_state : GraphState :=
  { base_state with
      pending_confirmation := some sample_pending
      requires_human_input := true }

/-- C1: at the Router-Confirmation gate (all of whose predecessors are agent
nodes entered with `requires_human_input` false, so a set flag always comes
with a pending confirmation — the `hinv` hypothesis), a pending confirmation
forces `human_interaction` in confirmation mode, else two completed agents
force `human_interaction` in review mode with the fixed prompt, else the
gate follows `next_agent`: `router` when it equals `"router"`, otherwise
`finalize`.  The explicit-confirmation tier is checked first. -/
theorem router_confirmation_gate_spec (s : GraphState)
    (hinv : s.requires_human_input = true → s.pending_confirmation.isSome) :
    (s.pending_confirmation.isSome →
      route_from_confirmation (router_confirmation_node s) = "human_interaction" ∧
      (router_confirmation_node s).human_input_type = some "confirmation" ∧
      (router_confirmation_node s).workflow_stage = "awaiting_confirmation") ∧
    (s.pending_confirmation = none →
      2 ≤ (s.agent_scratchpad.completed_agents.getD []).length →
      route_from_confirmation (router_confirmation_node s) = "human_interaction" ∧
      (router_confirmation_node s).human_input_type = some "review" ∧
      (router_confirmation_node s).human_input_prompt = some review_prompt) ∧
    (s.pending_confirmation = none →
      (s.agent_scratchpad.completed_agents.getD []).length < 2 →
      route_from_confirmation (router_confirmation_node s) =
        if s.next_agent = some "router" then "router" else "finalize") := by
  refine ⟨?_, ?_, ?_⟩
  · intro h
    simp [router_confirmation_node, route_from_confirmation, h]
  · intro hp hlen
    simp [router_confirmation_node, route_from_confirmation, hp, hlen]
  · intro hp hlen
    have hreq : s.requires_human_input = false := by
      cases hval : s.requires_human_input
      · rfl
      · exact absurd (hinv hval) (by simp [hp])
    have hnot : ¬ 2 ≤ (s.agent_scratchpad.completed_agents.getD []).length := by omega
    simp [router_confirmation_node, route_from_confirmation, hp, hreq, hnot]

/-- C1 witness: a state carrying a pending confirmation is routed to
`human_interaction` in confirmation mode. -/
theorem router_confirmation_gate_spec_witness :
    route_from_confirmation (router_confirmation_node c1_state) = "human_interaction" ∧
    (router_confirmation_node c1_state).human_input_type = some "confirmation" ∧
    (router_confirmation_node c1_state).workflow_stage = "awaiting_confirmation" :=
  (router_confirmation_gate_spec c1_state (fun _ => rfl)).1 rfl

/-- A state suspended for a profile-update confirmation, resumed with an
affirmative answer. -/
def c2_state : GraphState :=
  { base_state with
      human_input_type := some "confirmation"
      human_input_received := some "YES"
      requires_human_input := true
      pending_confirmation := some sample_pending
      workflow_stage := "awaiting_confirmation" }

/-- C2: on a confirmation resume, an affirmative answer (case-insensitive
member of yes/confirm/proceed/y) confirms the stage and, for a pending
profile update, marks the profile updated; any other answer cancels the
stage and writes the fixed cancellation message; and for every state,
whatever the input type, the resume node clears the four human-interaction
scratch fields. -/
theorem resume_confirmation_spec (s : GraphState) (inp : String)
    (htype : s.human_input_type = some "confirmation")
    (hin : s.human_input_received = some inp) :
    (py_lower inp ∈ affirmative_answers →
      (resume_after_human_node s).workflow_stage = "confirmed" ∧
      (s.pending_confirmation.map (·.action) = some "profile_update" →
        (resume_after_human_node s).profile_updated = true)) ∧
    (py_lower inp ∉ affirmative_answers →
      (resume_after_human_node s).workflow_stage = "cancelled" ∧
      (resume_after_human_node s).final_response = cancellation_message) ∧
    (∀ t : GraphState,
      (resume_after_human_node t).requires_human_input = false ∧
      (resume_after_human_node t).human_input_type = none ∧
      (resume_after_human_node t).human_input_prompt = none ∧
      (resume_after_human_node t).pending_confirmation = none) := by
  refine ⟨?_, ?_, fun t => ⟨rfl, rfl, rfl, rfl⟩⟩
  · intro hmem
    constructor
    · simp only [resume_after_human_node, htype, hin]
      simp [hmem]
      split_ifs <;> rfl
    · intro hact
      simp only [resume_after_human_node, htype, hin]
      simp [hmem, hact]
  · intro hmem
    constructor <;>
      · simp only [resume_after_human_node, htype, hin]
        simp [hmem]

/-- C2 witness: resuming the suspended state with "YES" confirms, applies the
profile update, and clears the pending confirmation. -/
theorem resume_confirmation_spec_witness :
    (resume_after_human_node c2_state).workflow_stage = "confirmed" ∧
    (resume_after_human_node c2_state).profile_updated = true ∧
    (resume_after_human_node c2_state).pending_confirmation = none :=
  have h := resume_confirmation_spec c2_state "YES" rfl rfl
  ⟨(h.1 (by decide)).1, (h.1 (by decide)).2 rfl, ((h.2.2) c2_state).2.2.2⟩

/-- C5: whenever the profile-updater agent returns `profile_updates` without
`profile_updated`, the wrapper node records a `pending_confirmation` with
action `profile_update` carrying those updates and a prompt, and raises
`requires_human_input` — a proposed change is never marked applied without
approval. -/
theorem profile_update_requires_confirmation (o : UpdOutcome) (s : GraphState)
    (u : ProfileUpdates)
    (h1 : (update_profile o s).profile_updates = some u)
    (h2 : (update_profile o s).profile_updated = false) :
    (profile_updater_node o s).pending_confirmation =
      some ⟨"profile_update", u, confirmation_prompt_for u⟩ ∧
    (profile_updater_node o s).requires_human_input = true := by
  constructor <;>
    simp [profile_updater_node, append_completed, profile_confirmation_rule, h1, h2]

/-- C5 witness: a failed store write leaves `profile_updated` false, and the
wrapper then demands confirmation. -/
theorem profile_update_requires_confirmation_witness :
    (profile_updater_node (.applied [] false none) base_state).pending_confirmation =
      some ⟨"profile_update", ⟨[], some failed_update_message⟩,
        confirmation_prompt_for ⟨[], some failed_update_message⟩⟩ ∧
    (profile_updater_node (.applied [] false none) base_state).requires_human_input = true :=
  profile_update_requires_confirmation (.applied [] false none) base_state
    ⟨[], some failed_update_message⟩ rfl rfl

/-- C8 counterexample: the career-path agent node writes `final_response`
directly — on a fresh state whose `final_response` is empty, running the
node with a successful model call changes `final_response` to the model
output, refuting the claim that no individual agent node writes it. -/
theorem agent_writes_final_response_counterexample :
    (career_path_node (some "Here is your career guidance.") base_state).final_response =
      "Here is your career guidance." ∧
    base_state.final_response = "" ∧
    ("Here is your career guidance." : String) ≠ "" :=
  ⟨rfl, rfl, by decide⟩

/-- C8 amended: `final_response` is written directly by the career-path,
content-enhancement and job-fit agent nodes (for career-path turns this
direct write is the output channel the finalizer preserves); among the four
agents only the profile updater never writes it. -/
theorem agents_write_final_response_directly :
    (∀ (s : GraphState) (g : String),
      (career_path_node (some g) s).final_response = g) ∧
    (∀ (s : GraphState) (e : String),
      (content_enhancement_node (some e) s).final_response = e) ∧
    (∀ (s : GraphState) (llm : Option JobFitDict),
      (job_fit_analyst_node llm { s with current_user_query := "hi" }).final_response =
        no_job_description_response) ∧
    (∀ (s : GraphState) (o : UpdOutcome),
      (profile_updater_node o s).final_response = s.final_response) := by
  refine ⟨fun s g => rfl, fun s e => rfl, ?_, ?_⟩
  · intro s llm
    have hjd : extract_job_description "hi" = "" := by decide
    cases llm <;> simp [job_fit_analyst_node, append_completed, analyze_job_fit, hjd]
  · intro s o
    cases o with
    | raised => rfl
    | noUpdates => rfl
    | applied u succ r =>
      cases succ <;> cases r <;>
        simp [profile_updater_node, append_completed, profile_confirmation_rule,
          update_profile] <;>
        split_ifs <;> rfl

/-- An environment with no persisted checkpoint for the session. -/
def c9_env : Env := ⟨none, [], id, id⟩

/-- C9: a `resume_from_interrupt = true` call against a session whose
persisted checkpoint is missing or does not have `requires_human_input`
true performs no resume and raises nothing: it behaves exactly like the
fresh-turn call, seeding the initial state from the stored history window
plus the new message. -/
theorem resume_without_interrupt_falls_back (env : Env) (sid msg : String) (prof : Profile)
    (h : env.checkpoint = none ∨
      ∃ st, env.checkpoint = some st ∧ st.requires_human_input = false) :
    process_message env sid msg prof true = process_message env sid msg prof false := by
  rcases h with hnone | ⟨st, hsome, hfalse⟩
  · simp [process_message, hnone]
  · simp [process_message, hsome, hfalse]

/-- C9 witness: with no checkpoint stored, the resume call and the fresh
call coincide on a concrete environment. -/
theorem resume_without_interrupt_falls_back_witness :
    c9_env.checkpoint = none ∧
    process_message c9_env "session-1" "hello" [] true =
      process_message c9_env "session-1" "hello" [] false :=
  ⟨rfl, resume_without_interrupt_falls_back c9_env "session-1" "hello" [] (Or.inl rfl)⟩

/-- The `profile_updates` dict present when a confirmation is pending (the
wrapper only fires on a failed store write, which also leaves this message
in the slot). -/
def c3_updates : ProfileUpdates := ⟨[], some failed_update_message⟩

/-- The checkpointed state of a turn suspended for profile-update
confirmation, resumed with "no thanks". -/
def c3_state : GraphState :=
  { base_state with
      current_user_query := "I just learned Docker"
      agent_type := "profile_updater"
      next_agent := some "end"
      agent_scratchpad :=
        { routing_history := some [⟨"I just learned Docker", "profile_updater", "processing"⟩]
          routing_decisions := some [⟨"I just learned Docker", "profile_updater", false⟩]
          completed_agents := some ["profile_updater"] }
      profile_updates := some c3_updates
      requires_human_input := true
      human_input_type := some "confirmation"
      human_input_prompt := some (confirmation_prompt_for c3_updates)
      human_input_received := some "no thanks"
      pending_confirmation := some ⟨"profile_update", c3_updates, confirmation_prompt_for c3_updates⟩
      workflow_stage := "awaiting_input" }

/-- C3, behaviour of the code at the failing input: resuming the suspended
confirmation with "no thanks" does write the cancellation message and the
cancelled stage, and the cancelled turn is routed to the finalizer — but the
finalizer then overwrites `final_response` with the aggregated
profile-update message, so the cancellation text is not the turn's final
user-visible response, contrary to the claimed bypass. -/
theorem cancellation_overwritten_by_finalizer :
    (resume_after_human_node c3_state).workflow_stage = "cancelled" ∧
    (resume_after_human_node c3_state).final_response = cancellation_message ∧
    route_from_router (router_node none (resume_after_human_node c3_state)) = "finalize" ∧
    (finalize_response_node (router_node none (resume_after_human_node c3_state))).final_response =
      failed_update_message ∧
    failed_update_message ≠ cancellation_message := by
  refine ⟨?_, ?_, ?_, ?_, ?_⟩ <;> decide

/-! ## Routing-history preservation lemmas (for the audit-trail theorem) -/

/-- `route_query` rewrites `routing_decisions` but not `routing_history`. -/
lemma route_query_routing_history (llm : RouterLLM) (s : GraphState) :
    (route_query llm s).agent_scratchpad.routing_history =
      s.agent_scratchpad.routing_history := rfl

/-- The completion bookkeeping leaves `routing_history` alone. -/
lemma append_completed_routing_history (n : String) (s : GraphState) :
    (append_completed n s).agent_scratchpad.routing_history =
      s.agent_scratchpad.routing_history := rfl

/-- The profile-updater agent never touches the scratchpad. -/
lemma update_profile_scratchpad (o : UpdOutcome) (s : GraphState) :
    (update_profile o s).agent_scratchpad = s.agent_scratchpad := by
  cases o with
  | raised => rfl
  | noUpdates => rfl
  | applied u succ r =>
    cases succ <;> cases r <;>
      simp [update_profile] <;> split_ifs <;> rfl

/-- The confirmation rule only sets `pending_confirmation` and the input
flag. -/
lemma profile_confirmation_rule_scratchpad (r : GraphState) :
    (profile_confirmation_rule r).agent_scratchpad = r.agent_scratchpad := by
  cases h : r.profile_updates <;> simp [profile_confirmation_rule, h]
  split_ifs <;> rfl

/-- The job-fit agent never touches the scratchpad. -/
lemma analyze_job_fit_scratchpad (llm : Option JobFitDict) (s : GraphState) :
    (analyze_job_fit llm s).agent_scratchpad = s.agent_scratchpad := by
  cases llm <;> (simp only [analyze_job_fit]; split <;> rfl)

/-- The career-path agent never touches the scratchpad. -/
lemma provide_career_guidance_scratchpad (llm : Option String) (s : GraphState) :
    (provide_career_guidance llm s).agent_scratchpad = s.agent_scratchpad := by
  cases llm <;> rfl

/-- The content-enhancement agent never touches the scratchpad. -/
lemma enhance_content_scratchpad (llm : Option String) (s : GraphState) :
    (enhance_content llm s).agent_scratchpad = s.agent_scratchpad := by
  cases llm <;> rfl

/-- The human-interaction node never touches the scratchpad. -/
lemma human_interaction_node_scratchpad (s : GraphState) :
    (human_interaction_node s).agent_scratchpad = s.agent_scratchpad := by
  simp only [human_interaction_node]
  split_ifs <;> first | rfl | (split <;> rfl)

/-- The resume node never touches the scratchpad. -/
lemma resume_after_human_node_scratchpad (s : GraphState) :
    (resume_after_human_node s).agent_scratchpad = s.agent_scratchpad := by
  simp only [resume_after_human_node]
  split_ifs <;> rfl

/-- The confirmation gate never touches the scratchpad. -/
lemma router_confirmation_node_scratchpad (s : GraphState) :
    (router_confirmation_node s).agent_scratchpad = s.agent_scratchpad := by
  simp only [router_confirmation_node]
  split_ifs <;> rfl

/-- The finalizer never touches the scratchpad. -/
lemma finalize_response_node_scratchpad (s : GraphState) :
    (finalize_response_node s).agent_scratchpad = s.agent_scratchpad := by
  simp only [finalize_response_node]
  split_ifs <;> rfl

/-- The router node appends exactly the record of its visit. -/
lemma router_node_routing_history (llm : RouterLLM) (s : GraphState) :
    (router_node llm s).agent_scratchpad.routing_history =
      some ((s.agent_scratchpad.routing_history.getD []) ++
        [⟨(if truthy s.human_input_received then s.human_input_received.getD ""
           else s.current_user_query), validated_decision llm, s.workflow_stage⟩]) := by
  by_cases h1 : truthy s.human_input_received <;>
    by_cases h2 : s.agent_scratchpad.routing_history = none <;>
      simp [router_node, route_query, h1, h2]

/-- One graph step grows the routing history by one exactly when it is a
router visit. -/
lemma run_step_routing_history_length (st : Step) (s : GraphState) :
    routing_history_length (run_step st s) =
      routing_history_length s + (if st.isRouter then 1 else 0) := by
  cases st with
  | router llm =>
      simp [run_step, Step.isRouter, routing_history_length, router_node_routing_history]
  | profileUpdater o =>
      simp [run_step, Step.isRouter, routing_history_length, profile_updater_node,
        append_completed_routing_history, profile_confirmation_rule_scratchpad,
        update_profile_scratchpad]
  | jobFitAnalyst llm =>
      simp [run_step, Step.isRouter, routing_history_length, job_fit_analyst_node,
        append_completed_routing_history, analyze_job_fit_scratchpad]
  | careerPath llm =>
      simp [run_step, Step.isRouter, routing_history_length, career_path_node,
        append_completed_routing_history, provide_career_guidance_scratchpad]
  | contentEnhancement llm =>
      simp [run_step, Step.isRouter, routing_history_length, content_enhancement_node,
        append_completed_routing_history, enhance_content_scratchpad]
  | humanInteraction =>
      simp [run_step, Step.isRouter, routing_history_length, human_interaction_node_scratchpad]
  | resumeAfterHuman =>
      simp [run_step, Step.isRouter, routing_history_length, resume_after_human_node_scratchpad]
  | routerConfirmation =>
      simp [run_step, Step.isRouter, routing_history_length, router_confirmation_node_scratchpad]
  | finalizeResponse =>
      simp [run_step, Step.isRouter, routing_history_length, finalize_response_node_scratchpad]

/-- C6: each router visit appends exactly one `{query, decision, stage}`
record to `routing_history` (creating the list if absent) recording the
query active at that visit, and no other node removes or rewrites entries —
over any sequence of node visits the routing-history length grows by
precisely the number of router visits. -/
theorem routing_history_audit_trail :
    (∀ (steps : List Step) (s : GraphState),
      routing_history_length (run_steps steps s) =
        routing_history_length s + (steps.filter Step.isRouter).length) ∧
    (∀ (llm : RouterLLM) (s : GraphState),
      (router_node llm s).agent_scratchpad.routing_history =
        some ((s.agent_scratchpad.routing_history.getD []) ++
          [⟨(if truthy s.human_input_received then s.human_input_received.getD ""
             else s.current_user_query), validated_decision llm, s.workflow_stage⟩])) := by
  constructor
  · intro steps
    induction steps with
    | nil => intro s; simp [run_steps]
    | cons st rest ih =>
        intro s
        have h1 : run_steps (st :: rest) s = run_steps rest (run_step st s) := rfl
        rw [h1, ih (run_step st s), run_step_routing_history_length st s]
        cases h : st.isRouter
        · simp [List.filter_cons, h]
        · simp [List.filter_cons, h]
          omega
  · exact router_node_routing_history

end CareerCoach
